import Mathlib

/-!
Verification of the session-and-admission subsystem of the fastapi-todo
backend: the rate limiter, the token blacklist, the read-through cache
discipline of the todo services, the due-date validator, and the reminder
scheduler.  Every definition is a shallow embedding of the corresponding
Python function; timestamps are modelled as integer Unix seconds, and the
TTL-capable Redis store as a function from keys to optional entries
carrying an absolute expiry instant.
-/

namespace FastapiTodo

/-- Pointwise update of a function-backed key-value store. -/
def upd {κ α : Type} [DecidableEq κ] (s : κ → Option α) (k : κ) (v : Option α) :
    κ → Option α :=
  fun x => if x = k then v else s x

/-! ### Rate limiting (src/utils/redis_client.py, src/utils/rate_limiter.py)

A rate-window counter as stored in Redis: an integer count plus an optional
absolute expiry instant (`none` when the key carries no TTL, as is the case
right after INCR creates it). -/

structure RateEntry where
  count : Int
  expiresAt : Option Int
deriving DecidableEq

def RateStore : Type := String → Option RateEntry

/-- Whether a stored entry is still live (unexpired) at instant `now`.
Redis drops a key once its TTL has passed. -/
def entryLive (e : RateEntry) (now : Int) : Bool :=
  match e.expiresAt with
  | none => true
  | some t => decide (now < t)

/-- Redis INCR at instant `now`: if the key is absent or already expired it
is (re)created with value 1 and no TTL; otherwise the count is incremented
in place and the TTL is left untouched.  Returns the post-increment value. -/
def rincr (s : RateStore) (k : String) (now : Int) : Int × RateStore :=
  match s k with
  | some e =>
    if entryLive e now then (e.count + 1, upd s k (some ⟨e.count + 1, e.expiresAt⟩))
    else (1, upd s k (some ⟨1, none⟩))
  | none => (1, upd s k (some ⟨1, none⟩))

/-- Redis EXPIRE: set the TTL of an existing key so that it expires
`seconds` after `now`; a no-op on an absent key. -/
def rexpire (s : RateStore) (k : String) (seconds now : Int) : RateStore :=
  match s k with
  | some e => upd s k (some ⟨e.count, some (now + seconds)⟩)
  | none => s

/-- Embedding of `check_rate_limit` (src/utils/redis_client.py lines
191-214): increment the window counter, set the TTL to `window` exactly
when the post-increment value is 1, and report whether the count is still
within `maxRequests`.  The `ekvUp` flag models whether Redis is reachable;
the function catches every Redis error and returns True (fail open). -/
def check_rate_limit (ekvUp : Bool) (s : RateStore) (k : String)
    (maxRequests window now : Int) : Bool × RateStore :=
  if ekvUp then
    let current := (rincr s k now).1
    let s1 := (rincr s k now).2
    let s2 := if current = 1 then rexpire s1 k window now else s1
    (decide (current ≤ maxRequests), s2)
  else
    (true, s)

/-- The counter entry that a single admission check leaves under its key,
as a function of the prior entry: a live counter is incremented with its
expiry untouched, while an absent or expired counter restarts at 1 with a
fresh window. -/
def nextRateEntry (o : Option RateEntry) (window now : Int) : RateEntry :=
  match o with
  | some e => if entryLive e now then ⟨e.count + 1, e.expiresAt⟩ else ⟨1, some (now + window)⟩
  | none => ⟨1, some (now + window)⟩

/-- Outcome of the FastAPI rate-limit dependency as seen by the request:
it either lets the request through, raises the intended 429, or lets an
unexpected exception escape (which the framework turns into a 500). -/
inductive RLOutcome
  | allowed
  | http429
  | nameError
deriving DecidableEq

/-- Embedding of the inner `check_rate_limit` dependency of `rate_limit`
(src/utils/rate_limiter.py lines 17-44), with Python name-resolution taken
into account.  The module never imports `redis`, yet its handler clause is
`except redis.ConnectionError`.  Hence whenever the try block raises -
either because Redis is unreachable (ConnectionError from `incr`) or
because the limit is exceeded (the deliberate HTTPException 429) -
evaluating the handler clause raises NameError, which escapes the
dependency in place of the intended fail-open pass or 429. -/
def rate_limit_dependency (ekvUp : Bool) (s : RateStore) (k : String)
    (maxRequests window now : Int) : RLOutcome × RateStore :=
  if ekvUp then
    let current := (rincr s k now).1
    let s1 := (rincr s k now).2
    let s2 := if current = 1 then rexpire s1 k window now else s1
    if maxRequests < current then (.nameError, s2)
    else (.allowed, s2)
  else
    (.nameError, s)

/-! ### Token blacklist and JWT handling (src/utils/redis_client.py,
src/utils/jwt.py) -/

/-- A revocation entry as stored in Redis under `blacklist:<jti>`: the
sentinel string and the absolute instant at which the entry expires. -/
structure BLEntry where
  value : String
  expiresAt : Int
deriving DecidableEq

def BLStore : Type := String → Option BLEntry

/-- Redis EXISTS on `blacklist:<jti>` at instant `now` (an expired entry
has been dropped by Redis). -/
def blExists (s : BLStore) (jti : String) (now : Int) : Bool :=
  match s jti with
  | some e => decide (now < e.expiresAt)
  | none => false

/-- How a call to `revoke_jti` ends: a normal return, or the NameError
escaping its body. -/
inductive RevokeOutcome
  | ok
  | nameError
deriving DecidableEq

/-- Embedding of `revoke_jti` (src/utils/jwt.py lines 54-68), with Python
name resolution taken into account.  The function computes
`ttl = exp - now`; a non-positive remaining lifetime returns normally
without touching Redis.  The positive-lifetime branch intends to SETEX the
sentinel under `blacklist:<jti>` with TTL `ttl`, but jwt.py never imports
`redis_client`, so line 68 raises NameError and nothing is ever written:
the store is unchanged in both branches. -/
def revoke_jti (s : BLStore) (_jti : String) (exp now : Int) : RevokeOutcome × BLStore :=
  let ttl := exp - now
  if 0 < ttl then (.nameError, s)
  else (.ok, s)

/-- Embedding of `blacklist_token` (src/utils/redis_client.py lines
141-168), the working variant of the same logic - its module does import
the Redis client: with `ttl = exp - now`, a positive remaining lifetime
stores the sentinel `revoked` under `blacklist:<jti>` via SETEX with TTL
`ttl` and returns True, a non-positive one writes nothing and returns
False.  Only src/test_redis.py calls it; the logout path goes through
`revoke_jti`. -/
def blacklist_token (s : BLStore) (jti : String) (exp now : Int) : Bool × BLStore :=
  let ttl := exp - now
  if 0 < ttl then (true, upd s jti (some ⟨"revoked", now + ttl⟩))
  else (false, s)

/-- Embedding of `is_token_blacklisted` (src/utils/redis_client.py lines
171-186): an EXISTS check that catches every Redis error and returns False
(fail open) when the store is unreachable. -/
def is_token_blacklisted (ekvUp : Bool) (s : BLStore) (jti : String) (now : Int) : Bool :=
  if ekvUp then blExists s jti now else false

/-- Decoded JWT payload: subject, issue and expiry instants, token id. -/
structure TokenPayload where
  sub : String
  iat : Int
  exp : Int
  jti : String
deriving DecidableEq

/-- Result of `decode_token`: the payload, one of the two PyJWT failure
modes raised by `jwt.decode` itself, or the NameError that escapes the
function body afterwards. -/
inductive DecodeResult
  | expiredSignature
  | invalidToken (msg : String)
  | nameError
  | ok (payload : TokenPayload)
deriving DecidableEq

/-- Embedding of `decode_token` (src/utils/jwt.py lines 39-51), with
Python name resolution taken into account.  `jwt.decode` on line 44
verifies the signature (modelled by the `sigOk` flag) and the expiry and
raises its own exceptions for those.  Line 48 then intends to consult the
Redis revocation entry for the token id (docstring: "Also checks
blacklist"), but jwt.py never imports `redis_client`, so evaluating that
name raises NameError before any store round trip: every validly signed,
unexpired token makes `decode_token` raise NameError, for every state of
the revocation store.  The `bl` parameter is the store line 48 would have
consulted; the result never depends on it. -/
def decode_token (sigOk : Bool) (p : TokenPayload) (_bl : BLStore) (now : Int) : DecodeResult :=
  if !sigOk then .invalidToken "bad signature"
  else if p.exp ≤ now then .expiredSignature
  else .nameError

/-! ### Todo data model, cache and services (src/todo/services/todo.py,
src/utils/redis_client.py, src/auth/services/dependencies.py) -/

/-- A todo document as stored in MongoDB. -/
structure TodoDoc where
  id : String
  user_id : String
  heading : String
  task : String
  completed : Bool
  created_at : Int
  updated_at : Int
  completion_time : Option Int
  reminder_sent : Bool
deriving DecidableEq

/-- The serialized view of a todo that the services return and cache (the
`_id`-to-string and isoformat conversions are injective renamings, so the
view keeps the same fields minus the owner id). -/
structure TodoView where
  id : String
  heading : String
  task : String
  completed : Bool
  created_at : Int
  updated_at : Int
  completion_time : Option Int
  reminder_sent : Bool
deriving DecidableEq

def renderTodo (d : TodoDoc) : TodoView :=
  ⟨d.id, d.heading, d.task, d.completed, d.created_at, d.updated_at,
    d.completion_time, d.reminder_sent⟩

/-- Cache keys, one constructor per key pattern of the scheme in use:
`todosOf u` stands for the string key `todos:<u>`, `todoOne t` for
`todo:<t>`, and `userOf u` for `user:<u>`.  The three patterns are
pairwise disjoint because the prefixes differ. -/
inductive CKey
  | todosOf (uid : String)
  | todoOne (tid : String)
  | userOf (uid : String)
deriving DecidableEq

/-- Values the application JSON-serializes into the cache. -/
inductive CVal
  | todoList (l : List TodoView)
  | userView (id name email : String)
deriving DecidableEq

/-- A cache entry together with its absolute expiry instant. -/
structure CEntry where
  val : CVal
  expiresAt : Int
deriving DecidableEq

def CacheMap : Type := CKey → Option CEntry

/-- Embedding of `get_cache`: the stored value when present and unexpired,
`None` otherwise. -/
def get_cache (c : CacheMap) (k : CKey) (now : Int) : Option CVal :=
  match c k with
  | some e => if now < e.expiresAt then some e.val else none
  | none => none

/-- Embedding of `set_cache`: SETEX with a TTL of `expire` seconds. -/
def set_cache (c : CacheMap) (k : CKey) (v : CVal) (expire now : Int) : CacheMap :=
  upd c k (some ⟨v, now + expire⟩)

/-- Embedding of `delete_cache`. -/
def delete_cache (c : CacheMap) (k : CKey) : CacheMap :=
  upd c k none

/-- The mutable state the todo services touch: the `todos` collection and
the shared Redis cache. -/
structure AppState where
  todos : List TodoDoc
  cache : CacheMap

/-- Mongo `update_one`: apply `f` to the first document matching `p`,
returning the new list and the matched count (0 or 1). -/
def updateFirstBy (l : List TodoDoc) (p : TodoDoc → Bool) (f : TodoDoc → TodoDoc) :
    List TodoDoc × Nat :=
  match l with
  | [] => ([], 0)
  | d :: rest =>
    if p d then (f d :: rest, 1)
    else
      let r := updateFirstBy rest p f
      (d :: r.1, r.2)

/-- Mongo `delete_one`: remove the first document matching `p`, returning
the new list and the deleted count (0 or 1). -/
def removeFirstBy (l : List TodoDoc) (p : TodoDoc → Bool) : List TodoDoc × Nat :=
  match l with
  | [] => ([], 0)
  | d :: rest =>
    if p d then (rest, 1)
    else
      let r := removeFirstBy rest p
      (d :: r.1, r.2)

/-- The Mongo filter `{"_id": tid, "user_id": uid}` used by the point
read, the update and the delete. -/
def byIdAndOwner (tid uid : String) : TodoDoc → Bool :=
  fun d => decide (d.id = tid ∧ d.user_id = uid)

/-- The Mongo filter `{"_id": tid}` used by the scheduler's mark-sent
update. -/
def byId (tid : String) : TodoDoc → Bool :=
  fun d => decide (d.id = tid)

/-- The freshly rendered list view of one owner's todos, as the loader
(the Mongo scan plus serialization) computes it. -/
def listView (todos : List TodoDoc) (uid : String) : List TodoView :=
  (todos.filter (fun d => decide (d.user_id = uid))).map renderTodo

/-- Embedding of `create_todo_service` (src/todo/services/todo.py lines
12-39): insert the new document (`newId` standing for the generated
ObjectId), delete the owner's list cache entry `todos:<uid>`, and return
the rendered view. -/
def create_todo_service (st : AppState) (newId uid heading task : String)
    (completion_time : Option Int) (now : Int) : TodoView × AppState :=
  let doc : TodoDoc := ⟨newId, uid, heading, task, false, now, now, completion_time, false⟩
  (renderTodo doc,
    ⟨st.todos ++ [doc], delete_cache st.cache (.todosOf uid)⟩)

/-- Embedding of `get_all_todos_service` (src/todo/services/todo.py lines
41-65).  The cached list is returned only when it is non-empty, because
the source guards it with `if cached_todos:` and an empty Python list is
falsy; on that miss path the loader runs, its result is cached for 300
seconds, and the result is returned.  The third component counts how often
the loader (the Mongo scan) ran in the call: 0 on a cache hit, 1 otherwise. -/
def get_all_todos_service (st : AppState) (uid : String) (now : Int) :
    List TodoView × AppState × Nat :=
  match get_cache st.cache (.todosOf uid) now with
  | some (.todoList (v :: rest)) => (v :: rest, st, 0)
  | _ =>
    let result := listView st.todos uid
    (result,
      ⟨st.todos, set_cache st.cache (.todosOf uid) (.todoList result) 300 now⟩, 1)

/-- Embedding of `get_todo_service` (src/todo/services/todo.py lines
67-83): a point read against the collection scoped by id and owner, with
a 404 when absent; the cache is neither read nor written. -/
def get_todo_service (st : AppState) (uid tid : String) :
    Except Nat TodoView × AppState :=
  match st.todos.find? (byIdAndOwner tid uid) with
  | some d => (.ok (renderTodo d), st)
  | none => (.error 404, st)

/-- The update payload after `model_dump(exclude_unset=True)`: each field
is present only when the request supplied it (for `completion_time` an
explicit null is `some none`). -/
structure TodoUpdateData where
  heading : Option String
  task : Option String
  completed : Option Bool
  completion_time : Option (Option Int)
deriving DecidableEq

/-- One update applied to a matched document, mirroring the `$set` payload
built by `update_todo_service`: the supplied fields, `reminder_sent` forced
to true when the update sets `completed` to true, and a fresh `updated_at`. -/
def applyUpdate (d : TodoDoc) (u : TodoUpdateData) (now : Int) : TodoDoc :=
  { d with
    heading := u.heading.getD d.heading
    task := u.task.getD d.task
    completed := u.completed.getD d.completed
    completion_time := u.completion_time.getD d.completion_time
    reminder_sent := if u.completed = some true then true else d.reminder_sent
    updated_at := now }

/-- Embedding of `update_todo_service` (src/todo/services/todo.py lines
85-103): 400 on an empty payload, `update_one` scoped by id and owner,
404 when nothing matched, and on success deletion of both cache keys
`todos:<uid>` and `todo:<tid>` before the success message is returned. -/
def update_todo_service (st : AppState) (uid tid : String) (u : TodoUpdateData)
    (now : Int) : Except Nat String × AppState :=
  if u = ⟨none, none, none, none⟩ then (.error 400, st)
  else
    let r := updateFirstBy st.todos (byIdAndOwner tid uid) (fun d => applyUpdate d u now)
    if r.2 = 0 then (.error 404, ⟨r.1, st.cache⟩)
    else
      (.ok "Todo updated successfully",
        ⟨r.1, delete_cache (delete_cache st.cache (.todosOf uid)) (.todoOne tid)⟩)

/-- Embedding of `delete_todo_service` (src/todo/services/todo.py lines
105-114): `delete_one` scoped by id and owner, 404 when nothing matched,
and on success deletion of both cache keys before the success message. -/
def delete_todo_service (st : AppState) (uid tid : String) :
    Except Nat String × AppState :=
  let r := removeFirstBy st.todos (byIdAndOwner tid uid)
  if r.2 = 0 then (.error 404, ⟨r.1, st.cache⟩)
  else
    (.ok "Todo deleted successfully",
      ⟨r.1, delete_cache (delete_cache st.cache (.todosOf uid)) (.todoOne tid)⟩)

/-- A user document (src/utils/db.py user collection). -/
structure UserDoc where
  id : String
  name : String
  email : String
deriving DecidableEq

/-- Embedding of the cache discipline of `get_current_user`
(src/auth/services/dependencies.py lines 12-44): resolve the identity from
the `user:<uid>` cache entry when present, otherwise load the user from
the store, cache the rendered view for 600 seconds, and return it; 401
when the user does not exist. -/
def get_current_user_service (st : AppState) (users : String → Option UserDoc)
    (uid : String) (now : Int) : Except Nat UserDoc × AppState :=
  match get_cache st.cache (.userOf uid) now with
  | some (.userView i n e) => (.ok ⟨i, n, e⟩, st)
  | _ =>
    match users uid with
    | none => (.error 401, st)
    | some u =>
      (.ok u,
        ⟨st.todos, set_cache st.cache (.userOf uid) (.userView u.id u.name u.email) 600 now⟩)

/-! ### Due-date validation (src/todo/schema.py) -/

/-- Embedding of the `validate_completion_time` validator shared by
`TodoCreate` and `TodoUpdate` (src/todo/schema.py lines 12-16 and 25-29):
a supplied due date strictly earlier than the validation instant raises,
anything else passes through (a datetime is always truthy in Python, so
the `if v and ...` guard only excludes the absent case). -/
def validate_completion_time (v : Option Int) (now : Int) : Except String (Option Int) :=
  match v with
  | none => .ok none
  | some t => if t < now then .error "completion_time must be in the future" else .ok (some t)

/-- Whether a supplied due date is strictly in the past at instant `now` -
the exact condition under which the validator rejects. -/
def pastDue (v : Option Int) (now : Int) : Bool :=
  match v with
  | some t => decide (t < now)
  | none => false

/-- `pastDue` lifted to the update payload field, where the due date may
be absent, explicit null, or a value. -/
def pastDueU (v : Option (Option Int)) (now : Int) : Bool :=
  match v with
  | some w => pastDue w now
  | none => false

/-- The create route as the request sees it: the `TodoCreate` validator
runs first, and only a payload it accepts reaches `create_todo_service`. -/
def create_todo_endpoint (st : AppState) (newId uid heading task : String)
    (completion_time : Option Int) (now : Int) : Except String TodoView × AppState :=
  match validate_completion_time completion_time now with
  | .error e => (.error e, st)
  | .ok v =>
    let r := create_todo_service st newId uid heading task v now
    (.ok r.1, r.2)

/-- The update route as the request sees it: the `TodoUpdate` validator
runs on a supplied `completion_time` first, and only an accepted payload
reaches `update_todo_service`. -/
def update_todo_endpoint (st : AppState) (uid tid : String) (u : TodoUpdateData)
    (now : Int) : Except String (Except Nat String) × AppState :=
  match u.completion_time with
  | some w =>
    match validate_completion_time w now with
    | .error e => (.error e, st)
    | .ok _ =>
      let r := update_todo_service st uid tid u now
      (.ok r.1, r.2)
  | none =>
    let r := update_todo_service st uid tid u now
    (.ok r.1, r.2)

/-! ### Reminder scheduler (src/utils/reminder_scheduler.py) -/

/-- Whether `now` lies in the reminder window of a todo.  The source
computes `threshold = created_at + 0.9 * (completion_time - created_at)`
over real-valued seconds and fires iff `threshold <= now < completion_time`;
multiplying the first inequality by 10 turns it into the exact integer
comparison used here. -/
def inReminderWindow (t : TodoDoc) (now : Int) : Bool :=
  match t.completion_time with
  | some ct => decide (10 * t.created_at + 9 * (ct - t.created_at) ≤ 10 * now ∧ now < ct)
  | none => false

/-- Whether the record's owner exists and has a non-empty email, the guard
`if user and user.get("email")` of the scheduler. -/
def ownerEmailOk (users : String → Option UserDoc) (uid : String) : Bool :=
  match users uid with
  | some u => decide (u.email ≠ "")
  | none => false

/-- The scheduler's Mongo candidate filter: `completed = False`,
`reminder_sent = False`, and a due date present. -/
def isCandidate (d : TodoDoc) : Bool :=
  !d.completed && !d.reminder_sent && d.completion_time.isSome

/-- The runtime guards inside the candidate loop: the 90-percent window
and the owner lookup with a non-empty email. -/
def windowOwner (users : String → Option UserDoc) (now : Int) (t : TodoDoc) : Bool :=
  inReminderWindow t now && ownerEmailOk users t.user_id

/-- The per-record condition under which one scheduler run attempts a
notification: the candidate filter together with the window and owner
guards of the loop body. -/
def attemptExpected (users : String → Option UserDoc) (t : TodoDoc) (now : Int) : Bool :=
  isCandidate t && windowOwner users now t

/-- The `$set {reminder_sent: true}` update applied to a record whose
notification went out. -/
def markDone (d : TodoDoc) : TodoDoc :=
  { d with reminder_sent := true }

/-- One iteration of the scheduler's candidate loop (src/utils/
reminder_scheduler.py lines 37-75).  The accumulator carries the current
collection state and the log of attempted sends (todo ids, in order).
`sendOk t` tells whether `send_todo_reminder` returns normally for todo id
`t`; on success the record is marked `reminder_sent = true` by an
`update_one` on its id, on failure the exception is caught, logged and the
loop moves on. -/
def reminderStep (users : String → Option UserDoc) (sendOk : String → Bool) (now : Int)
    (acc : List TodoDoc × List String) (t : TodoDoc) : List TodoDoc × List String :=
  match t.completion_time with
  | none => acc
  | some ct =>
    if 10 * t.created_at + 9 * (ct - t.created_at) ≤ 10 * now ∧ now < ct then
      match users t.user_id with
      | some u =>
        if u.email ≠ "" then
          if sendOk t.id then
            ((updateFirstBy acc.1 (byId t.id) markDone).1, acc.2 ++ [t.id])
          else (acc.1, acc.2 ++ [t.id])
        else acc
      | none => acc
    else acc

/-- Embedding of `check_and_send_reminders` (src/utils/
reminder_scheduler.py lines 14-80): select every todo with
`completed = False`, `reminder_sent = False` and a due date present, then
run the candidate loop over that snapshot.  Returns the final collection
state and the list of attempted notifications. -/
def check_and_send_reminders (db : List TodoDoc) (users : String → Option UserDoc)
    (sendOk : String → Bool) (now : Int) : List TodoDoc × List String :=
  let candidates := db.filter isCandidate
  candidates.foldl (reminderStep users sendOk now) (db, [])

/-- The collection state one scheduler run is expected to leave behind:
exactly the records whose notification was attempted and whose send
succeeded are marked `reminder_sent = true`, everything else is untouched. -/
def markSuccessful (users : String → Option UserDoc) (sendOk : String → Bool)
    (now : Int) (db : List TodoDoc) : List TodoDoc :=
  db.map (fun d =>
    if attemptExpected users d now && sendOk d.id then markDone d else d)

/-! ### Basic store lemmas -/

theorem upd_same {κ α : Type} [DecidableEq κ] (s : κ → Option α) (k : κ) (v : Option α) :
    upd s k v k = v := by
  simp [upd]

theorem upd_other {κ α : Type} [DecidableEq κ] (s : κ → Option α) (k : κ) (v : Option α)
    (k2 : κ) (h : k2 ≠ k) : upd s k v k2 = s k2 := by
  simp [upd, h]

/-- The scaled integer window test coincides with the exact rational
reading of the source formula `created_at + 0.9 * (due - created_at) <= now
< due`. -/
theorem inReminderWindow_iff_rat (t : TodoDoc) (ct now : Int)
    (h : t.completion_time = some ct) :
    (inReminderWindow t now = true ↔
      ((t.created_at : ℚ) + ((ct : ℚ) - (t.created_at : ℚ)) * (9 / 10) ≤ (now : ℚ)
        ∧ (now : ℚ) < (ct : ℚ))) := by
  unfold inReminderWindow
  rw [h]
  simp only [decide_eq_true_eq]
  constructor
  · rintro ⟨h1, h2⟩
    have h1q : ((10 * t.created_at + 9 * (ct - t.created_at) : Int) : ℚ)
        ≤ ((10 * now : Int) : ℚ) := by exact_mod_cast h1
    push_cast at h1q
    constructor
    · linarith
    · exact_mod_cast h2
  · rintro ⟨h1, h2⟩
    have h1q : ((10 * t.created_at + 9 * (ct - t.created_at) : Int) : ℚ)
        ≤ ((10 * now : Int) : ℚ) := by push_cast; linarith
    constructor
    · exact_mod_cast h1q
    · exact_mod_cast h2

/-! ### Concrete states used by witnesses and counterexamples -/

/-- An empty rate-limit store. -/
def rsEmpty : RateStore := fun _ => none

/-- A rate-limit store in which the scope key already counted 3 requests
of the current window. -/
def rsAtLimit : RateStore :=
  fun k => if k = "rate_limit:todo:9.9.9.9" then some ⟨3, some 60⟩ else none

/-- An empty blacklist store. -/
def blEmpty : BLStore := fun _ => none

/-- A blacklist store holding a revocation entry for token id j1 until
instant 100. -/
def blRevokedJ1 : BLStore :=
  fun k => if k = "j1" then some ⟨"revoked", 100⟩ else none

/-- A validly issued token for user u1 with id j1, expiring at 100. -/
def tok1 : TokenPayload := ⟨"user1", 0, 100, "j1"⟩

/-! ### Claim C2 -/

/-- Claim C2: the admission check increments the per-scope counter, sets
the TTL to the window length exactly on the increment that yields count 1,
never touches the TTL of a live counter, allows the request iff the
post-increment count is within the limit, and leaves every other scope
key untouched.  `nextRateEntry` packages the per-key effect: a live
counter keeps its expiry and gains one, an absent or expired counter
restarts at 1 with a fresh window (so after the window elapses the next
request is allowed again). -/
theorem C2_rate_limit_fixed_window (s : RateStore) (k k2 : String)
    (maxRequests window now : Int)
    (hwf : ∀ e, s k = some e → 1 ≤ e.count) (hk2 : k2 ≠ k) :
    (check_rate_limit true s k maxRequests window now).2 k
        = some (nextRateEntry (s k) window now) ∧
    (check_rate_limit true s k maxRequests window now).1
        = decide ((nextRateEntry (s k) window now).count ≤ maxRequests) ∧
    (check_rate_limit true s k maxRequests window now).2 k2 = s k2 := by
  unfold check_rate_limit
  cases h : s k with
  | none =>
    simp [rincr, h, rexpire, upd, nextRateEntry, hk2]
  | some e =>
    cases hl : entryLive e now with
    | false =>
      simp [rincr, h, hl, rexpire, upd, nextRateEntry, hk2]
    | true =>
      have h1 : 1 ≤ e.count := hwf e h
      have h2 : ¬(e.count + 1 = 1) := by omega
      simp [rincr, h, hl, rexpire, upd, nextRateEntry, h2, hk2]

/-- Witness for C2: the first request of a fresh window creates the
counter at 1 with a 60-second TTL and is allowed under limit 3. -/
theorem C2_rate_limit_fixed_window_witness :
    (check_rate_limit true rsEmpty "rate_limit:login:1.2.3.4" 3 60 0).2 "rate_limit:login:1.2.3.4"
        = some (nextRateEntry (rsEmpty "rate_limit:login:1.2.3.4") 60 0) ∧
    (check_rate_limit true rsEmpty "rate_limit:login:1.2.3.4" 3 60 0).1
        = decide ((nextRateEntry (rsEmpty "rate_limit:login:1.2.3.4") 60 0).count ≤ 3) ∧
    (check_rate_limit true rsEmpty "rate_limit:login:1.2.3.4" 3 60 0).2 "rate_limit:register:1.2.3.4"
        = rsEmpty "rate_limit:register:1.2.3.4" :=
  C2_rate_limit_fixed_window rsEmpty "rate_limit:login:1.2.3.4" "rate_limit:register:1.2.3.4"
    3 60 0 (fun e h => Option.noConfusion h) (by decide)

/-! ### Claim C8 -/

/-- Claim C8 (code bug): the claim describes the intended revocation
behavior - non-positive remaining lifetime is a no-op, positive remaining
lifetime stores `blacklist:<jti>` with TTL exactly `exp - now` - but the
live revocation path, `revoke_jti` in jwt.py (the only one the logout
route calls), raises NameError on its positive-lifetime branch because
jwt.py never imports `redis_client`, storing nothing.  Evaluating the
embedding: revoking j1 with 60 seconds of lifetime left raises NameError
and leaves the store empty; the non-positive-lifetime half genuinely
returns as a no-op; and `blacklist_token`, the working variant in
redis_client.py that only test code calls, does store the sentinel
expiring exactly at the original token expiry 100 and does skip an
already-expired token. -/
theorem C8_revoke_name_error :
    (revoke_jti blEmpty "j1" 100 40).1 = RevokeOutcome.nameError ∧
    (revoke_jti blEmpty "j1" 100 40).2 "j1" = none ∧
    (revoke_jti blEmpty "j1" 10 40).1 = RevokeOutcome.ok ∧
    (revoke_jti blEmpty "j1" 10 40).2 "j1" = none ∧
    (blacklist_token blEmpty "j1" 100 40).1 = true ∧
    (blacklist_token blEmpty "j1" 100 40).2 "j1" = some ⟨"revoked", 100⟩ ∧
    (blacklist_token blEmpty "j1" 10 40).1 = false ∧
    (blacklist_token blEmpty "j1" 10 40).2 "j1" = none := by
  refine ⟨rfl, rfl, rfl, rfl, rfl, ?_, rfl, rfl⟩
  rfl

/-! ### Claim C4 -/

/-- Claim C4 (code bug): the claim describes the intended verification -
check only the signature and the expiry, return the payload, leave
revocation to the caller - but decode_token's line 48 references
`redis_client`, which jwt.py never imports, so every validly signed,
unexpired token makes decode raise NameError instead of returning the
payload.  Evaluating the embedding: decoding tok1 at instant 10 raises
NameError under an empty revocation store and under one in which tok1's
id is revoked alike (the claimed insensitivity to the store holds only in
this degenerate, always-failing form), while the two library-raised
failures - bad signature, expired token - still surface as themselves. -/
theorem C4_decode_name_error :
    decode_token true tok1 blEmpty 10 = DecodeResult.nameError ∧
    decode_token true tok1 blRevokedJ1 10 = DecodeResult.nameError ∧
    decode_token true tok1 blEmpty 10 = decode_token true tok1 blRevokedJ1 10 ∧
    decode_token false tok1 blEmpty 10 = DecodeResult.invalidToken "bad signature" ∧
    decode_token true tok1 blEmpty 100 = DecodeResult.expiredSignature := by
  exact ⟨rfl, rfl, rfl, rfl, rfl⟩

/-! ### Claim C6 -/

/-- Claim C6 (code bug): src/utils/rate_limiter.py never imports `redis`,
so its `except redis.ConnectionError` clause raises NameError whenever the
try block raises.  Hence with the EKV down the admission dependency does
not fail open but lets a NameError escape (a 5xx), and even a plain
over-limit denial with a healthy EKV escapes as NameError instead of the
intended 429.  By contrast the revocation check and the helper
`check_rate_limit` in src/utils/redis_client.py, whose module does import
`redis` and catches broadly, genuinely fail open. -/
theorem C6_admission_error_paths :
    (rate_limit_dependency false rsEmpty "rate_limit:todo:9.9.9.9" 10 60 0).1
        = RLOutcome.nameError ∧
    (rate_limit_dependency true rsAtLimit "rate_limit:todo:9.9.9.9" 3 60 0).1
        = RLOutcome.nameError ∧
    is_token_blacklisted false blRevokedJ1 "j1" 50 = false ∧
    (check_rate_limit false rsEmpty "rate_limit:todo:9.9.9.9" 10 60 0).1 = true := by
  refine ⟨rfl, ?_, rfl, rfl⟩
  rfl

/-! ### Claim C9 -/

/-- Claim C9 counterexample: a due date exactly equal to the validation
instant does not lie in the future, yet the validator accepts it - the
source only rejects `v < now` - so the claim that every non-future due
date is rejected fails at this boundary. -/
theorem C9_counterexample :
    (100:Int) ≤ 100 ∧
    validate_completion_time (some 100) 100 = Except.ok (some 100) :=
  ⟨by decide, rfl⟩

/-- Claim C9 (amended): a supplied due date strictly earlier than the
validation instant is rejected by both the create and the update
validators and the state is left unchanged (the record is not created or
changed); a due date equal to or later than the validation instant, or an
absent one, passes the check and the service runs. -/
theorem C9_due_date_validation (st : AppState) (newId uid heading task : String)
    (v : Option Int) (tid : String) (u : TodoUpdateData) (now : Int) :
    (create_todo_endpoint st newId uid heading task v now).1
        = (if pastDue v now then Except.error "completion_time must be in the future"
           else Except.ok (create_todo_service st newId uid heading task v now).1) ∧
    (create_todo_endpoint st newId uid heading task v now).2
        = (if pastDue v now then st
           else (create_todo_service st newId uid heading task v now).2) ∧
    (update_todo_endpoint st uid tid u now).1
        = (if pastDueU u.completion_time now
           then Except.error "completion_time must be in the future"
           else Except.ok (update_todo_service st uid tid u now).1) ∧
    (update_todo_endpoint st uid tid u now).2
        = (if pastDueU u.completion_time now then st
           else (update_todo_service st uid tid u now).2) := by
  have hcreate : (create_todo_endpoint st newId uid heading task v now).1
        = (if pastDue v now then Except.error "completion_time must be in the future"
           else Except.ok (create_todo_service st newId uid heading task v now).1) ∧
      (create_todo_endpoint st newId uid heading task v now).2
        = (if pastDue v now then st
           else (create_todo_service st newId uid heading task v now).2) := by
    cases v with
    | none => simp [create_todo_endpoint, validate_completion_time, pastDue]
    | some tv =>
      by_cases htv : tv < now
      · simp [create_todo_endpoint, validate_completion_time, pastDue, htv]
      · simp [create_todo_endpoint, validate_completion_time, pastDue, htv]
  have hupdate : (update_todo_endpoint st uid tid u now).1
        = (if pastDueU u.completion_time now
           then Except.error "completion_time must be in the future"
           else Except.ok (update_todo_service st uid tid u now).1) ∧
      (update_todo_endpoint st uid tid u now).2
        = (if pastDueU u.completion_time now then st
           else (update_todo_service st uid tid u now).2) := by
    cases hu : u.completion_time with
    | none => simp [update_todo_endpoint, validate_completion_time, pastDueU, hu]
    | some w =>
      cases w with
      | none => simp [update_todo_endpoint, validate_completion_time, pastDueU, pastDue, hu]
      | some x =>
        by_cases hx : x < now
        · simp [update_todo_endpoint, validate_completion_time, pastDueU, pastDue, hu, hx]
        · simp [update_todo_endpoint, validate_completion_time, pastDueU, pastDue, hu, hx]
  exact ⟨hcreate.1, hcreate.2, hupdate.1, hupdate.2⟩

/-! ### Cache discipline lemmas -/

theorem updateFirstBy_matched (l : List TodoDoc) (p : TodoDoc → Bool) (f : TodoDoc → TodoDoc)
    (h : ∃ d ∈ l, p d = true) : (updateFirstBy l p f).2 = 1 := by
  induction l with
  | nil =>
    rcases h with ⟨d, hd, _⟩
    cases hd
  | cons a rest ih =>
    by_cases hpa : p a = true
    · simp [updateFirstBy, hpa]
    · rcases h with ⟨d, hd, hpd⟩
      rcases List.mem_cons.mp hd with rfl | hdr
      · exact absurd hpd hpa
      · simp only [updateFirstBy, hpa, if_neg, Bool.false_eq_true, not_false_eq_true, ite_false]
        exact ih ⟨d, hdr, hpd⟩

theorem removeFirstBy_matched (l : List TodoDoc) (p : TodoDoc → Bool)
    (h : ∃ d ∈ l, p d = true) : (removeFirstBy l p).2 = 1 := by
  induction l with
  | nil =>
    rcases h with ⟨d, hd, _⟩
    cases hd
  | cons a rest ih =>
    by_cases hpa : p a = true
    · simp [removeFirstBy, hpa]
    · rcases h with ⟨d, hd, hpd⟩
      rcases List.mem_cons.mp hd with rfl | hdr
      · exact absurd hpd hpa
      · simp only [removeFirstBy, hpa, if_neg, Bool.false_eq_true, not_false_eq_true, ite_false]
        exact ih ⟨d, hdr, hpd⟩

/-- After its `todos:<uid>` entry has been invalidated, a list read runs
the loader, caches the fresh view for 300 seconds, and returns it. -/
theorem get_all_fresh (st : AppState) (uid : String) (now : Int)
    (h : st.cache (CKey.todosOf uid) = none) :
    get_all_todos_service st uid now
      = (listView st.todos uid,
         ⟨st.todos,
          set_cache st.cache (CKey.todosOf uid) (.todoList (listView st.todos uid)) 300 now⟩,
         1) := by
  unfold get_all_todos_service get_cache
  rw [h]

/-- A list read issued right after the loader populated the cache with a
non-empty view is a pure cache hit: same result, loader not invoked. -/
theorem get_all_after_populate (todos : List TodoDoc) (c : CacheMap) (uid : String)
    (now : Int) (hne : listView todos uid ≠ []) :
    get_all_todos_service
        ⟨todos, set_cache c (CKey.todosOf uid) (.todoList (listView todos uid)) 300 now⟩ uid now
      = (listView todos uid,
         ⟨todos, set_cache c (CKey.todosOf uid) (.todoList (listView todos uid)) 300 now⟩,
         0) := by
  have h300 : now < now + 300 := by omega
  cases hL : listView todos uid with
  | nil => exact absurd hL hne
  | cons v rest =>
    unfold get_all_todos_service get_cache set_cache upd
    simp [hL, h300]

/-! ### Claim C3 -/

/-- Claim C3: every mutating todo operation deletes all cache keys that
could hold a stale view before reporting success - create deletes
`todos:<uid>`, update and delete additionally delete `todo:<tid>` - and a
list read issued at any later instant therefore runs the loader against
the mutated collection instead of returning the previously observed
`todos:<uid>` entry. -/
theorem C3_cache_invalidation (st : AppState) (uid tid newId heading task : String)
    (ct : Option Int) (u : TodoUpdateData) (now now2 : Int)
    (hu : u ≠ ⟨none, none, none, none⟩)
    (hex : ∃ d ∈ st.todos, d.id = tid ∧ d.user_id = uid) :
    (create_todo_service st newId uid heading task ct now).2.cache (CKey.todosOf uid) = none ∧
    (get_all_todos_service (create_todo_service st newId uid heading task ct now).2 uid now2).1
        = listView (create_todo_service st newId uid heading task ct now).2.todos uid ∧
    (update_todo_service st uid tid u now).1 = Except.ok "Todo updated successfully" ∧
    (update_todo_service st uid tid u now).2.cache (CKey.todosOf uid) = none ∧
    (update_todo_service st uid tid u now).2.cache (CKey.todoOne tid) = none ∧
    (get_all_todos_service (update_todo_service st uid tid u now).2 uid now2).1
        = listView (update_todo_service st uid tid u now).2.todos uid ∧
    (delete_todo_service st uid tid).1 = Except.ok "Todo deleted successfully" ∧
    (delete_todo_service st uid tid).2.cache (CKey.todosOf uid) = none ∧
    (delete_todo_service st uid tid).2.cache (CKey.todoOne tid) = none ∧
    (get_all_todos_service (delete_todo_service st uid tid).2 uid now2).1
        = listView (delete_todo_service st uid tid).2.todos uid := by
  have hexb : ∃ d ∈ st.todos, byIdAndOwner tid uid d = true := by
    rcases hex with ⟨d, hd, h1, h2⟩
    exact ⟨d, hd, by simp [byIdAndOwner, h1, h2]⟩
  have hupd : (updateFirstBy st.todos (byIdAndOwner tid uid)
      (fun d => applyUpdate d u now)).2 = 1 :=
    updateFirstBy_matched _ _ _ hexb
  have hrem : (removeFirstBy st.todos (byIdAndOwner tid uid)).2 = 1 :=
    removeFirstBy_matched _ _ hexb
  have c1 : (create_todo_service st newId uid heading task ct now).2.cache
      (CKey.todosOf uid) = none := by
    simp [create_todo_service, delete_cache, upd]
  have u1 : (update_todo_service st uid tid u now).1
      = Except.ok "Todo updated successfully" := by
    simp [update_todo_service, hu, hupd]
  have u2 : (update_todo_service st uid tid u now).2.cache (CKey.todosOf uid) = none := by
    simp [update_todo_service, hu, hupd, delete_cache, upd]
  have u3 : (update_todo_service st uid tid u now).2.cache (CKey.todoOne tid) = none := by
    simp [update_todo_service, hu, hupd, delete_cache, upd]
  have d1 : (delete_todo_service st uid tid).1
      = Except.ok "Todo deleted successfully" := by
    simp [delete_todo_service, hrem]
  have d2 : (delete_todo_service st uid tid).2.cache (CKey.todosOf uid) = none := by
    simp [delete_todo_service, hrem, delete_cache, upd]
  have d3 : (delete_todo_service st uid tid).2.cache (CKey.todoOne tid) = none := by
    simp [delete_todo_service, hrem, delete_cache, upd]
  refine ⟨c1, ?_, u1, u2, u3, ?_, d1, d2, d3, ?_⟩
  · rw [get_all_fresh _ _ _ c1]
  · rw [get_all_fresh _ _ _ u2]
  · rw [get_all_fresh _ _ _ d2]

/-- A todo owned by u1, used by concrete examples. -/
def exTodo1 : TodoDoc := ⟨"t1", "u1", "hd", "tk", false, 0, 0, some 100, false⟩

/-- A cache already holding a (stale) list view for u1. -/
def exStale : CacheMap :=
  fun k => if k = CKey.todosOf "u1" then some ⟨.todoList [renderTodo exTodo1], 300⟩ else none

/-- A state with one todo for u1 and a populated list cache. -/
def exState : AppState := ⟨[exTodo1], exStale⟩

/-- An update payload changing only the heading. -/
def exUpd : TodoUpdateData := ⟨some "hd2", none, none, none⟩

/-- Witness for C3: updating t1 in a state whose list cache is populated
clears both keys, the call reports success, and the next list read is
served from the mutated collection. -/
theorem C3_cache_invalidation_witness :
    (update_todo_service exState "u1" "t1" exUpd 5).1
        = Except.ok "Todo updated successfully" ∧
    (update_todo_service exState "u1" "t1" exUpd 5).2.cache (CKey.todosOf "u1") = none ∧
    (update_todo_service exState "u1" "t1" exUpd 5).2.cache (CKey.todoOne "t1") = none ∧
    (get_all_todos_service (update_todo_service exState "u1" "t1" exUpd 5).2 "u1" 6).1
        = listView (update_todo_service exState "u1" "t1" exUpd 5).2.todos "u1" := by
  have h := C3_cache_invalidation exState "u1" "t1" "t2" "hd" "tk" none exUpd 5 6
    (by decide) (by decide)
  exact ⟨h.2.2.1, h.2.2.2.1, h.2.2.2.2.1, h.2.2.2.2.2.1⟩

/-! ### Claim C5 -/

/-- An empty cache. -/
def cmEmpty : CacheMap := fun _ => none

/-- A state with no todos and an empty cache. -/
def exEmptyState : AppState := ⟨[], cmEmpty⟩

/-- Claim C5 counterexample: for an owner with no todos the loader result
is the empty list, the source guard `if cached_todos:` treats the cached
empty list as a miss, and the loader is invoked again on the second call -
one load per call instead of the claimed single load with no intervening
invalidation. -/
theorem C5_counterexample :
    (get_all_todos_service exEmptyState "u1" 0).2.2 = 1 ∧
    (get_all_todos_service (get_all_todos_service exEmptyState "u1" 0).2.1 "u1" 0).2.2 = 1 := by
  constructor <;> rfl

/-- Claim C5 (amended): when the owner's freshly loaded view is non-empty,
two consecutive list reads with no intervening invalidation return
identical results and invoke the loader at most once between them (the
Python falsiness of the empty list breaks the loader-once part exactly
when the loader result is empty, and only then). -/
theorem C5_read_through_single_load (st : AppState) (uid : String) (now : Int)
    (hne : listView st.todos uid ≠ []) :
    (get_all_todos_service st uid now).1
        = (get_all_todos_service (get_all_todos_service st uid now).2.1 uid now).1 ∧
    (get_all_todos_service st uid now).2.2
        + (get_all_todos_service (get_all_todos_service st uid now).2.1 uid now).2.2 ≤ 1 := by
  have main : get_all_todos_service st uid now
        = (listView st.todos uid,
           ⟨st.todos,
            set_cache st.cache (CKey.todosOf uid) (.todoList (listView st.todos uid)) 300 now⟩,
           1) →
      (get_all_todos_service st uid now).1
          = (get_all_todos_service (get_all_todos_service st uid now).2.1 uid now).1 ∧
      (get_all_todos_service st uid now).2.2
          + (get_all_todos_service (get_all_todos_service st uid now).2.1 uid now).2.2 ≤ 1 := by
    intro h1
    rw [h1]
    rw [get_all_after_populate st.todos st.cache uid now hne]
    exact ⟨rfl, Nat.le_refl 1⟩
  cases hc : get_cache st.cache (CKey.todosOf uid) now with
  | none =>
    exact main (by unfold get_all_todos_service; rw [hc])
  | some cv =>
    cases cv with
    | userView i n e =>
      exact main (by unfold get_all_todos_service; rw [hc])
    | todoList l =>
      cases l with
      | nil =>
        exact main (by unfold get_all_todos_service; rw [hc])
      | cons v rest =>
        have h1 : get_all_todos_service st uid now = (v :: rest, st, 0) := by
          unfold get_all_todos_service
          rw [hc]
        rw [h1]
        rw [h1]
        simp

/-- A state with one todo for u1 and an empty cache. -/
def exListState : AppState := ⟨[exTodo1], cmEmpty⟩

/-- Witness for C5 (amended theorem): with one todo on file, the first
read loads and populates, the second read is a cache hit - identical
results, one load in total. -/
theorem C5_read_through_single_load_witness :
    (get_all_todos_service exListState "u1" 0).1
        = (get_all_todos_service (get_all_todos_service exListState "u1" 0).2.1 "u1" 0).1 ∧
    (get_all_todos_service exListState "u1" 0).2.2
        + (get_all_todos_service (get_all_todos_service exListState "u1" 0).2.1 "u1" 0).2.2 ≤ 1 :=
  C5_read_through_single_load exListState "u1" 0 (by decide)

/-! ### Claim C10 -/

/-- Claim C10: the single-record read neither reads nor writes the cache -
its output state is its input state and its result is insensitive to the
cache contents - and no operation of the system ever populates a
`todo:<tid>` cache entry: every operation either leaves that key untouched
or (update/delete) deletes it. -/
theorem C10_single_read_bypasses_cache (st : AppState) (c1 c2 : CacheMap)
    (users : String → Option UserDoc)
    (uid tid tid2 newId heading task : String) (ct : Option Int)
    (u : TodoUpdateData) (now : Int) :
    (get_todo_service st uid tid).2 = st ∧
    (get_todo_service ⟨st.todos, c1⟩ uid tid).1 = (get_todo_service ⟨st.todos, c2⟩ uid tid).1 ∧
    (create_todo_service st newId uid heading task ct now).2.cache (CKey.todoOne tid2)
        = st.cache (CKey.todoOne tid2) ∧
    (get_all_todos_service st uid now).2.1.cache (CKey.todoOne tid2)
        = st.cache (CKey.todoOne tid2) ∧
    (get_current_user_service st users uid now).2.cache (CKey.todoOne tid2)
        = st.cache (CKey.todoOne tid2) ∧
    ((update_todo_service st uid tid u now).2.cache (CKey.todoOne tid2) = none ∨
      (update_todo_service st uid tid u now).2.cache (CKey.todoOne tid2)
        = st.cache (CKey.todoOne tid2)) ∧
    ((delete_todo_service st uid tid).2.cache (CKey.todoOne tid2) = none ∨
      (delete_todo_service st uid tid).2.cache (CKey.todoOne tid2)
        = st.cache (CKey.todoOne tid2)) := by
  refine ⟨?_, ?_, ?_, ?_, ?_, ?_, ?_⟩
  · unfold get_todo_service
    cases h : st.todos.find? (byIdAndOwner tid uid) <;> simp [h]
  · unfold get_todo_service
    cases h : st.todos.find? (byIdAndOwner tid uid) <;> simp [h]
  · simp [create_todo_service, delete_cache, upd]
  · cases hc : get_cache st.cache (CKey.todosOf uid) now with
    | none =>
      unfold get_all_todos_service
      rw [hc]
      simp [set_cache, upd]
    | some cv =>
      cases cv with
      | userView i n e =>
        unfold get_all_todos_service
        rw [hc]
        simp [set_cache, upd]
      | todoList l =>
        cases l with
        | nil =>
          unfold get_all_todos_service
          rw [hc]
          simp [set_cache, upd]
        | cons v rest =>
          unfold get_all_todos_service
          rw [hc]
  · cases hc : get_cache st.cache (CKey.userOf uid) now with
    | none =>
      unfold get_current_user_service
      rw [hc]
      cases hu0 : users uid <;> simp [set_cache, upd]
    | some cv =>
      cases cv with
      | userView i n e =>
        unfold get_current_user_service
        rw [hc]
      | todoList l =>
        unfold get_current_user_service
        rw [hc]
        cases hu0 : users uid <;> simp [set_cache, upd]
  · by_cases hu0 : u = ⟨none, none, none, none⟩
    · right
      simp [update_todo_service, hu0]
    · by_cases hr : (updateFirstBy st.todos (byIdAndOwner tid uid)
          (fun d => applyUpdate d u now)).2 = 0
      · right
        simp [update_todo_service, hu0, hr]
      · by_cases htid : tid2 = tid
        · left
          simp [update_todo_service, hu0, hr, delete_cache, upd, htid]
        · right
          simp [update_todo_service, hu0, hr, delete_cache, upd, htid]
  · by_cases hr : (removeFirstBy st.todos (byIdAndOwner tid uid)).2 = 0
    · right
      simp [delete_todo_service, hr]
    · by_cases htid : tid2 = tid
      · left
        simp [delete_todo_service, hr, delete_cache, upd, htid]
      · right
        simp [delete_todo_service, hr, delete_cache, upd, htid]

/-! ### Scheduler lemmas -/

/-- Case characterization of one candidate-loop iteration: inside the
window with a resolvable owner the send is attempted and, exactly on
success, the record is marked by id; otherwise the accumulator is
untouched. -/
theorem reminderStep_eq (users : String → Option UserDoc) (sendOk : String → Bool)
    (now : Int) (dbA : List TodoDoc) (a0 : List String) (t : TodoDoc) :
    reminderStep users sendOk now (dbA, a0) t
      = if windowOwner users now t then
          (if sendOk t.id then (updateFirstBy dbA (byId t.id) markDone).1 else dbA,
            a0 ++ [t.id])
        else (dbA, a0) := by
  unfold reminderStep windowOwner inReminderWindow ownerEmailOk
  cases hct : t.completion_time with
  | none => simp
  | some ct =>
    by_cases hw : 10 * t.created_at + 9 * (ct - t.created_at) ≤ 10 * now ∧ now < ct
    · cases hu : users t.user_id with
      | none => simp [hw, hu]
      | some u =>
        by_cases he : u.email = ""
        · simp [hw, hu, he]
        · cases hs : sendOk t.id <;> simp [hw, hu, he, hs]
    · simp [hw]

/-- Over any candidate snapshot, the loop appends to the attempt log
exactly the ids of the candidates passing the window and owner guards, in
order, independently of the send outcomes and of the threaded collection
state. -/
theorem foldl_attempts (users : String → Option UserDoc) (sendOk : String → Bool)
    (now : Int) (cs : List TodoDoc) :
    ∀ (dbA : List TodoDoc) (a0 : List String),
    (cs.foldl (reminderStep users sendOk now) (dbA, a0)).2
      = a0 ++ (cs.filter (windowOwner users now)).map TodoDoc.id := by
  induction cs with
  | nil =>
    intro dbA a0
    simp
  | cons t cs ih =>
    intro dbA a0
    rw [List.foldl_cons, reminderStep_eq]
    cases hw : windowOwner users now t with
    | true =>
      rw [if_pos rfl]
      rw [ih]
      simp [List.filter_cons, hw, List.append_assoc]
    | false =>
      rw [if_neg (by simp)]
      rw [ih]
      simp [List.filter_cons, hw]

/-- `update_one` by id over a collection with pairwise-distinct ids acts
like a pointwise conditional map. -/
theorem updateFirstBy_byId_eq_map (l : List TodoDoc) (tid : String) (f : TodoDoc → TodoDoc)
    (h : (l.map TodoDoc.id).Nodup) :
    (updateFirstBy l (byId tid) f).1 = l.map (fun d => if d.id = tid then f d else d) := by
  induction l with
  | nil => rfl
  | cons a rest ih =>
    rw [List.map_cons, List.nodup_cons] at h
    by_cases ha : a.id = tid
    · have hrest : ∀ d ∈ rest, (fun d => if d.id = tid then f d else d) d = d := by
        intro d hd
        have hne : ¬ d.id = tid := by
          intro hdt
          have : a.id ∈ rest.map TodoDoc.id := by
            rw [ha, ← hdt]
            exact List.mem_map_of_mem TodoDoc.id hd
          exact h.1 this
        simp [hne]
      have h1 : (updateFirstBy (a :: rest) (byId tid) f).1 = f a :: rest := by
        simp [updateFirstBy, byId, ha]
      have h2 : rest.map (fun d => if d.id = tid then f d else d) = rest := by
        rw [List.map_congr_left hrest]
        exact List.map_id' rest
      rw [h1, List.map_cons, if_pos ha, h2]
    · have h1 : (updateFirstBy (a :: rest) (byId tid) f).1
          = a :: (updateFirstBy rest (byId tid) f).1 := by
        simp [updateFirstBy, byId, ha]
      rw [h1, ih h.2, List.map_cons, if_neg ha]

/-- The collection with every record whose id occurs in `ids` marked as
sent. -/
def markIds (db : List TodoDoc) (ids : List String) : List TodoDoc :=
  db.map (fun d => if d.id ∈ ids then markDone d else d)

theorem markIds_nil (db : List TodoDoc) : markIds db [] = db := by
  simp [markIds]

/-- Marking preserves the id column. -/
theorem markAt_map_id (db : List TodoDoc) (i : String) :
    (db.map (fun d => if d.id = i then markDone d else d)).map TodoDoc.id
      = db.map TodoDoc.id := by
  rw [List.map_map]
  apply List.map_congr_left
  intro d _
  by_cases hdi : d.id = i <;> simp [Function.comp, hdi, markDone]

/-- Marking one id and then a list of ids is marking the extended list. -/
theorem markOne_then_markIds (db : List TodoDoc) (i : String) (ids : List String) :
    markIds (db.map (fun d => if d.id = i then markDone d else d)) ids
      = markIds db (i :: ids) := by
  unfold markIds
  rw [List.map_map]
  apply List.map_congr_left
  intro d _
  by_cases hdi : d.id = i
  · by_cases hmem : d.id ∈ ids <;>
      simp [Function.comp, hdi, markDone, hmem, List.mem_cons]
  · by_cases hmem : d.id ∈ ids <;>
      simp [Function.comp, hdi, markDone, hmem, List.mem_cons]

/-- Over any candidate snapshot, the loop leaves the collection with
exactly the candidates that passed the guards and whose send succeeded
marked as sent, provided the threaded collection has pairwise-distinct
ids. -/
theorem foldl_db (users : String → Option UserDoc) (sendOk : String → Bool)
    (now : Int) (cs : List TodoDoc) :
    ∀ (dbA : List TodoDoc) (a0 : List String), (dbA.map TodoDoc.id).Nodup →
    (cs.foldl (reminderStep users sendOk now) (dbA, a0)).1
      = markIds dbA
          ((cs.filter (fun t => windowOwner users now t && sendOk t.id)).map TodoDoc.id) := by
  induction cs with
  | nil =>
    intro dbA a0 _
    simp [markIds_nil]
  | cons t cs ih =>
    intro dbA a0 h
    rw [List.foldl_cons, reminderStep_eq]
    cases hw : windowOwner users now t with
    | false =>
      rw [if_neg (by simp)]
      rw [ih dbA a0 h]
      simp [List.filter_cons, hw]
    | true =>
      rw [if_pos rfl]
      cases hs : sendOk t.id with
      | false =>
        rw [if_neg (by simp)]
        rw [ih dbA (a0 ++ [t.id]) h]
        simp [List.filter_cons, hw, hs]
      | true =>
        rw [if_pos rfl]
        have hdb1 : (updateFirstBy dbA (byId t.id) markDone).1
            = dbA.map (fun d => if d.id = t.id then markDone d else d) :=
          updateFirstBy_byId_eq_map dbA t.id markDone h
        have hnd : (((updateFirstBy dbA (byId t.id) markDone).1).map TodoDoc.id).Nodup := by
          rw [hdb1, markAt_map_id]
          exact h
        rw [ih _ (a0 ++ [t.id]) hnd, hdb1, markOne_then_markIds]
        simp [List.filter_cons, hw, hs]

/-! ### Claim C1 -/

/-- Claim C1: in one scheduler run at instant `now`, a record with a
resolvable owner gets a notification attempt iff it passes the candidate
filter (`completed = false`, `reminder_sent = false`, due date present)
and `created_at + 0.9 * (due - created_at) <= now < due` holds (the
integer form of the window; see `inReminderWindow_iff_rat`) and the owner
lookup yields a user with a non-empty email.  In particular a completed
record never triggers an attempt, and a record already past its due date
at scan time triggers none. -/
theorem C1_reminder_window (db : List TodoDoc) (users : String → Option UserDoc)
    (sendOk : String → Bool) (now : Int) (t : TodoDoc)
    (hnodup : (db.map TodoDoc.id).Nodup) (ht : t ∈ db) :
    (t.id ∈ (check_and_send_reminders db users sendOk now).2
      ↔ attemptExpected users t now = true) := by
  simp only [check_and_send_reminders]
  rw [foldl_attempts users sendOk now (db.filter isCandidate) db []]
  rw [List.nil_append]
  constructor
  · intro hmem
    rcases List.mem_map.mp hmem with ⟨t2, ht2, hid⟩
    rcases List.mem_filter.mp ht2 with ⟨ht2db, hwo⟩
    rcases List.mem_filter.mp ht2db with ⟨ht2mem, hcand⟩
    have heq : t2 = t := List.inj_on_of_nodup_map hnodup ht2mem ht hid
    subst heq
    simp [attemptExpected, hcand, hwo]
  · intro hexp
    simp only [attemptExpected, Bool.and_eq_true] at hexp
    apply List.mem_map.mpr
    refine ⟨t, ?_, rfl⟩
    apply List.mem_filter.mpr
    exact ⟨List.mem_filter.mpr ⟨ht, hexp.1⟩, hexp.2⟩

/-- A user record with an email on file. -/
def exUsers : String → Option UserDoc :=
  fun u => if u = "u1" then some ⟨"u1", "Alice", "alice@example.com"⟩ else none

/-- A send collaborator that fails for todo t1 and succeeds otherwise. -/
def exSendOk : String → Bool := fun t => decide (t ≠ "t1")

/-- A second candidate todo owned by u1. -/
def exT2 : TodoDoc := ⟨"t2", "u1", "h2", "k2", false, 0, 0, some 100, false⟩

/-- A two-candidate collection. -/
def exDb : List TodoDoc := [exTodo1, exT2]

/-- Witness for C1: at instant 95 (past the 90-percent threshold of a
0-to-100 window, before the deadline) todo t2 of owner u1 is attempted
exactly as the per-record condition predicts. -/
theorem C1_reminder_window_witness :
    (exDb.map TodoDoc.id).Nodup ∧ exT2 ∈ exDb ∧
    (exT2.id ∈ (check_and_send_reminders exDb exUsers exSendOk 95).2
      ↔ attemptExpected exUsers exT2 95 = true) :=
  ⟨by decide, by decide,
    C1_reminder_window exDb exUsers exSendOk 95 exT2 (by decide) (by decide)⟩

/-! ### Claim C7 -/

/-- Claim C7: one scheduler run marks `reminder_sent = true` on exactly
the records whose notification attempt happened and whose send succeeded;
a record whose send raised keeps `reminder_sent = false` (so the next run
retries it), and a failure on one record does not disturb the processing
of the other candidates - the final collection is the pointwise
conditional marking of the input collection. -/
theorem C7_mark_only_after_send (db : List TodoDoc) (users : String → Option UserDoc)
    (sendOk : String → Bool) (now : Int)
    (hnodup : (db.map TodoDoc.id).Nodup) :
    (check_and_send_reminders db users sendOk now).1
      = markSuccessful users sendOk now db := by
  simp only [check_and_send_reminders]
  rw [foldl_db users sendOk now (db.filter isCandidate) db [] hnodup]
  unfold markIds markSuccessful
  apply List.map_congr_left
  intro d hd
  by_cases hcond : (attemptExpected users d now && sendOk d.id) = true
  · have hmem : d.id ∈ ((db.filter isCandidate).filter
        (fun t => windowOwner users now t && sendOk t.id)).map TodoDoc.id := by
      simp only [attemptExpected, Bool.and_eq_true] at hcond
      apply List.mem_map.mpr
      refine ⟨d, ?_, rfl⟩
      apply List.mem_filter.mpr
      refine ⟨List.mem_filter.mpr ⟨hd, hcond.1.1⟩, ?_⟩
      simp [hcond.1.2, hcond.2]
    rw [if_pos hmem, if_pos hcond]
  · have hmem : ¬ d.id ∈ ((db.filter isCandidate).filter
        (fun t => windowOwner users now t && sendOk t.id)).map TodoDoc.id := by
      intro hmem
      rcases List.mem_map.mp hmem with ⟨t2, ht2, hid⟩
      rcases List.mem_filter.mp ht2 with ⟨ht2c, hws⟩
      rcases List.mem_filter.mp ht2c with ⟨ht2mem, hcand⟩
      have heq : t2 = d := List.inj_on_of_nodup_map hnodup ht2mem hd hid
      subst heq
      apply hcond
      simp only [Bool.and_eq_true] at hws
      simp [attemptExpected, hcand, hws.1, hws.2]
    rw [if_neg hmem, if_neg hcond]

/-- Witness for C7: with two in-window candidates where the send for t1
raises and the send for t2 succeeds, the run leaves t1 unmarked (to be
retried next run) and marks exactly t2. -/
theorem C7_mark_only_after_send_witness :
    (check_and_send_reminders exDb exUsers exSendOk 95).1
        = markSuccessful exUsers exSendOk 95 exDb ∧
    markSuccessful exUsers exSendOk 95 exDb = [exTodo1, markDone exT2] :=
  ⟨C7_mark_only_after_send exDb exUsers exSendOk 95 (by decide), by decide⟩

end FastapiTodo
